import Mathlib

/-!
Shallow embedding of the date-normalization routine of
`python-plot-utilities` (`src/plot_utils.py`): the functions `as_date`
(lines 1503 to 1577) and `str2date_kernel` (lines 1580 to 1625).

Python strings are modelled as `String` (operated on through their
character lists), Python machine-independent integers as `Int`, and the
runtime exceptions the code can raise (`ValueError`, `TypeError`,
`UnboundLocalError`) as an explicit error type.  Console output produced
by the `print` calls of the source is tracked explicitly, because the
specification makes claims about diagnostics and about I/O freedom.
-/

/-- A constructed `datetime.date` value: the canonical calendar date. -/
structure Date where
  year : Nat
  month : Nat
  day : Nat
deriving Repr, DecidableEq

/-- The Python exceptions observable from `as_date` and `str2date_kernel`. -/
inductive PyErr where
  | valueError (msg : String)
  | typeError (msg : String)
  | unboundLocalError (name : String)
deriving Repr, DecidableEq

/-- A fallible computation together with the console lines it printed
before returning or raising. -/
structure Outcome (α : Type) where
  prints : List String
  result : Except PyErr α
deriving Repr

/-- The Python values that can reach `as_date`: `None`, `str`, `int`,
builtin `float`, `numpy.float64`, exact-type `datetime.date`, pandas
`Timestamp`, `list`, `pandas.Series`, `numpy.ndarray`, and `dict` as the
representative type outside the documented input domain.  The payload of
a float is its integer truncation `int(x)`, the only observation the
source ever makes of a float value. -/
inductive PyObj where
  | pyNone
  | pyStr (s : String)
  | pyInt (n : Int)
  | pyFloat (n : Int)
  | npFloat64 (n : Int)
  | pyDate (d : Date)
  | timestamp (t : Int)
  | pyList (xs : List PyObj)
  | series (xs : List PyObj)
  | ndarray (xs : List PyObj)
  | pyDict (size : Nat)

/-- A Python local variable of `str2date_kernel` after the dispatch
chain: never assigned, or assigned an `int`, or assigned a `str`.
`unbound` also stands for the initial `day = None`. -/
inductive Lv where
  | unbound
  | int (n : Int)
  | str (cs : List Char)
deriving Repr, DecidableEq

/-- The local variables `year`, `month`, `day` of `str2date_kernel`. -/
structure Locals where
  year : Lv
  month : Lv
  day : Lv
deriving Repr, DecidableEq

/-- Split a character list at every occurrence of the separator, as
Python `str.split(sep)` does (the empty string yields one empty part). -/
def splitCh (sep : Char) : List Char → List (List Char)
  | [] => [[]]
  | c :: cs =>
    match splitCh sep cs with
    | [] => if c == sep then [[], []] else [[c]]
    | g :: gs => if c == sep then [] :: g :: gs else (c :: g) :: gs

/-- Python tuple unpacking `a, b = l` for a two-element pattern:
raises `ValueError` unless the list has exactly two elements. -/
def unpack2 (l : List (List Char)) : Except PyErr (List Char × List Char) :=
  match l with
  | [a, b] => .ok (a, b)
  | _ => .error (.valueError "cannot unpack: expected 2 values")

/-- Python tuple unpacking `a, b, c = l` for a three-element pattern. -/
def unpack3 (l : List (List Char)) :
    Except PyErr (List Char × List Char × List Char) :=
  match l with
  | [a, b, c] => .ok (a, b, c)
  | _ => .error (.valueError "cannot unpack: expected 3 values")

/-- Lower-case an ASCII letter, identity elsewhere. -/
def lcChar (c : Char) : Char :=
  if 65 ≤ c.toNat ∧ c.toNat ≤ 90 then Char.ofNat (c.toNat + 32) else c

/-- The twelve abbreviated month names recognized by `strptime` with
format `%b` (matching is case-insensitive). -/
def monthAbbrevs : List (List Char) :=
  ["jan", "feb", "mar", "apr", "may", "jun",
   "jul", "aug", "sep", "oct", "nov", "dec"].map String.data

/-- The twelve full month names recognized by `strptime` with format
`%B` (matching is case-insensitive). -/
def monthFulls : List (List Char) :=
  ["january", "february", "march", "april", "may", "june", "july",
   "august", "september", "october", "november", "december"].map String.data

/-- `datetime.strptime(s, fmt).month` for a month-name format: the
1-based index of the (case-folded) input among the given names, or a
`ValueError` when the input is not a month name. -/
def strptimeMonth (names : List (List Char)) (cs : List Char) :
    Except PyErr Int :=
  match names.findIdx? (fun m => m == cs.map lcChar) with
  | some i => .ok ((i : Int) + 1)
  | none =>
    .error (.valueError ("time data " ++ String.mk cs ++
      " does not match the month format"))

/-- The value of a digit string, most significant digit first. -/
def digitsToNat (cs : List Char) : Nat :=
  cs.foldl (fun a c => a * 10 + (c.toNat - 48)) 0

/-- Strip leading and trailing spaces, as Python `int(str)` does before
parsing. -/
def stripSpaces (cs : List Char) : List Char :=
  ((cs.dropWhile (· == ' ')).reverse.dropWhile (· == ' ')).reverse

/-- The `ValueError` raised by Python `int(str)` on a malformed
literal. -/
def intErr (cs : List Char) : PyErr :=
  .valueError ("invalid literal for int() with base 10: " ++ String.mk cs)

/-- Python `int(str)`: optional surrounding spaces, an optional sign,
then a nonempty run of digits; anything else raises `ValueError`. -/
def pyIntChars (cs : List Char) : Except PyErr Int :=
  let t := stripSpaces cs
  if t.head? = some '-' then
    if t.tail ≠ [] ∧ t.tail.all Char.isDigit
    then .ok (-(digitsToNat t.tail : Int))
    else .error (intErr cs)
  else if t.head? = some '+' then
    if t.tail ≠ [] ∧ t.tail.all Char.isDigit
    then .ok (digitsToNat t.tail)
    else .error (intErr cs)
  else if t ≠ [] ∧ t.all Char.isDigit then .ok (digitsToNat t)
  else .error (intErr cs)

/-- Gregorian leap-year test, as `datetime` uses. -/
def isLeap (y : Int) : Bool :=
  y % 4 == 0 && (y % 100 != 0 || y % 400 == 0)

/-- Number of days of a month (the month is assumed to be in 1..12). -/
def daysInMonth (y m : Int) : Int :=
  if m = 2 then (if isLeap y then 29 else 28)
  else if m = 4 ∨ m = 6 ∨ m = 9 ∨ m = 11 then 30
  else 31

/-- The `datetime.date(year, month, day)` constructor applied to the
local variables of `str2date_kernel`.  Arguments are inspected left to
right, as CPython does: an unbound local raises `UnboundLocalError` at
the call site, a string argument raises `TypeError`, and integer
arguments are range-checked (`ValueError`). -/
def dt_date (y m d : Lv) : Except PyErr Date :=
  match y with
  | .unbound => .error (.unboundLocalError "year")
  | .str _ => .error (.typeError "an integer is required (got type str)")
  | .int yi =>
    match m with
    | .unbound => .error (.unboundLocalError "month")
    | .str _ => .error (.typeError "an integer is required (got type str)")
    | .int mi =>
      match d with
      | .unbound => .error (.unboundLocalError "day")
      | .str _ => .error (.typeError "an integer is required (got type str)")
      | .int di =>
        if yi < 1 ∨ 9999 < yi then
          .error (.valueError "year is out of range")
        else if mi < 1 ∨ 12 < mi then
          .error (.valueError "month must be in 1..12")
        else if di < 1 ∨ daysInMonth yi mi < di then
          .error (.valueError "day is out of range for month")
        else .ok ⟨yi.toNat, mi.toNat, di.toNat⟩

/-- Python `str.isdigit()`: nonempty and all digits. -/
def pyIsDigit (cs : List Char) : Bool := !cs.isEmpty && cs.all Char.isDigit

/-- Python `str.isalpha()`: nonempty and all alphabetic. -/
def pyIsAlpha (cs : List Char) : Bool := !cs.isEmpty && cs.all Char.isAlpha

/-- Guard of the first branch of `str2date_kernel` (line 1594):
a hyphen anywhere and total length 8, aimed at the style Aug-2014. -/
def kg1 (cs : List Char) : Bool := cs.contains '-' && cs.length == 8

/-- Guard of the second branch (line 1597): a space anywhere, aimed at
the style August 2014. -/
def kg2 (cs : List Char) : Bool := cs.contains ' '

/-- Guard of the third branch (line 1601): length 6 and all digits,
aimed at the style 201205. -/
def kg3 (cs : List Char) : Bool := cs.length == 6 && pyIsDigit cs

/-- Guard of the fourth branch (line 1604): length 7, a hyphen at index
4 and not purely numeric, aimed at the style 2015-03. -/
def kg4 (cs : List Char) : Bool :=
  cs.length == 7 && (cs.getD 4 ' ' == '-') && !pyIsDigit cs

/-- Guard of the fifth branch (line 1608): length 10 and not purely
numeric, aimed at the style 2012-02-01. -/
def kg5 (cs : List Char) : Bool := cs.length == 10 && !pyIsDigit cs

/-- Guard of the sixth branch (line 1613): length 6, a hyphen at index
3, an alphabetic prefix of three characters and a numeric suffix of two,
aimed at the style May-12. -/
def kg6 (cs : List Char) : Bool :=
  cs.length == 6 && (cs.getD 3 ' ' == '-') &&
    pyIsAlpha (cs.take 3) && pyIsDigit (cs.drop 4)

/-- First diagnostic line printed by the fallthrough branch of
`str2date_kernel` (line 1618). -/
def kedge1 : String :=
  "*****  Edge case encountered! (Date format not recognized.)  *****"

/-- Second diagnostic line printed by the fallthrough branch of
`str2date_kernel` (line 1619). -/
def kedge2 (date_ : String) : String :=
  "\nUser supplied " ++ date_ ++ ", which is not recognized.\n"

/-- Branch of `str2date_kernel` for the style Aug-2014 (lines 1595 to
1596): split on the hyphen and parse the month abbreviation.  The
source omits the integer conversion of the year here, so the year local
stays a string. -/
def kbranch1 (cs : List Char) : Except PyErr Locals :=
  match unpack2 (splitCh '-' cs) with
  | .error e => .error e
  | .ok (m, y) =>
    match strptimeMonth monthAbbrevs m with
    | .error e => .error e
    | .ok mo => .ok ⟨.str y, .int mo, .unbound⟩

/-- Branch for the style August 2014 (lines 1598 to 1600): split on the
space, parse the full month name, convert the year. -/
def kbranch2 (cs : List Char) : Except PyErr Locals :=
  match unpack2 (splitCh ' ' cs) with
  | .error e => .error e
  | .ok (m, y) =>
    match strptimeMonth monthFulls m with
    | .error e => .error e
    | .ok mo =>
      match pyIntChars y with
      | .error e => .error e
      | .ok yr => .ok ⟨.int yr, .int mo, .unbound⟩

/-- Branch for the style 201205 (lines 1602 to 1603): year from the
first four characters, month from the rest, no range validation. -/
def kbranch3 (cs : List Char) : Except PyErr Locals :=
  match pyIntChars (cs.take 4) with
  | .error e => .error e
  | .ok yr =>
    match pyIntChars (cs.drop 4) with
    | .error e => .error e
    | .ok mo => .ok ⟨.int yr, .int mo, .unbound⟩

/-- Branch for the style 2015-03 (lines 1605 to 1607): split on the
hyphen and convert both parts. -/
def kbranch4 (cs : List Char) : Except PyErr Locals :=
  match unpack2 (splitCh '-' cs) with
  | .error e => .error e
  | .ok (y, m) =>
    match pyIntChars y with
    | .error e => .error e
    | .ok yr =>
      match pyIntChars m with
      | .error e => .error e
      | .ok mo => .ok ⟨.int yr, .int mo, .unbound⟩

/-- Branch for the style 2012-02-01 (lines 1609 to 1612): split on the
hyphens and convert the three parts; the day local is assigned. -/
def kbranch5 (cs : List Char) : Except PyErr Locals :=
  match unpack3 (splitCh '-' cs) with
  | .error e => .error e
  | .ok (y, m, d) =>
    match pyIntChars y with
    | .error e => .error e
    | .ok yr =>
      match pyIntChars m with
      | .error e => .error e
      | .ok mo =>
        match pyIntChars d with
        | .error e => .error e
        | .ok dd => .ok ⟨.int yr, .int mo, .int dd⟩

/-- Branch for the style May-12 (lines 1614 to 1617): split on the
hyphen, parse the month abbreviation, and add 2000 to the two-digit
year. -/
def kbranch6 (cs : List Char) : Except PyErr Locals :=
  match unpack2 (splitCh '-' cs) with
  | .error e => .error e
  | .ok (m, y) =>
    match strptimeMonth monthAbbrevs m with
    | .error e => .error e
    | .ok mo =>
      match pyIntChars y with
      | .error e => .error e
      | .ok yr => .ok ⟨.int (yr + 2000), .int mo, .unbound⟩

/-- The dispatch chain of `str2date_kernel` (lines 1593 to 1619): the
state of the locals `year`, `month`, `day` after the `if`/`elif`/`else`
ladder, or the exception raised inside the taken branch.  The branches
print nothing; the final `else` only prints its two diagnostic lines
and leaves all three locals unassigned. -/
def kernelLocals (date_ : String) : Outcome Locals :=
  let cs := date_.data
  if kg1 cs then ⟨[], kbranch1 cs⟩
  else if kg2 cs then ⟨[], kbranch2 cs⟩
  else if kg3 cs then ⟨[], kbranch3 cs⟩
  else if kg4 cs then ⟨[], kbranch4 cs⟩
  else if kg5 cs then ⟨[], kbranch5 cs⟩
  else if kg6 cs then ⟨[], kbranch6 cs⟩
  else ⟨[kedge1, kedge2 date_], .ok ⟨.unbound, .unbound, .unbound⟩⟩

/-- `str2date_kernel` (lines 1580 to 1625): run the dispatch chain,
then construct `datetime.date(year, month, 1)` when `day` is still
`None` and `datetime.date(year, month, day)` otherwise. -/
def str2date_kernel (date_ : String) : Outcome Date :=
  match kernelLocals date_ with
  | ⟨ps, .error e⟩ => ⟨ps, .error e⟩
  | ⟨ps, .ok l⟩ =>
    match l.day with
    | .unbound => ⟨ps, dt_date l.year l.month (.int 1)⟩
    | d => ⟨ps, dt_date l.year l.month d⟩

/-- A digit character from a value below 10. -/
def digitChar (n : Nat) : Char := Char.ofNat (48 + n)

/-- Decimal digits of a natural number, driven by explicit fuel so the
definition reduces structurally. -/
def natToCharsAux : Nat → Nat → List Char
  | 0, _ => []
  | fuel + 1, n =>
    if n < 10 then [digitChar n]
    else natToCharsAux fuel (n / 10) ++ [digitChar (n % 10)]

/-- Decimal representation of a natural number. -/
def natToChars (n : Nat) : List Char := natToCharsAux (n + 1) n

/-- Python `str(n)` for an integer `n`. -/
def intToString (n : Int) : String :=
  match n with
  | .ofNat m => String.mk (natToChars m)
  | .negSucc m => String.mk ('-' :: natToChars (m + 1))

/-- Python `int(x)` on an `as_date` input object: strings are parsed,
integers are returned, floats are truncated (the model already stores
the truncation), anything else raises `TypeError`. -/
def py_int (x : PyObj) : Except PyErr Int :=
  match x with
  | .pyStr s => pyIntChars s.data
  | .pyInt n => .ok n
  | .pyFloat n => .ok n
  | .npFloat64 n => .ok n
  | _ => .error (.typeError "int() argument must be a string or a number")

/-- One pass of the element loop of `as_date` (lines 1556 to 1559): the
value of the local `date_` after the three `if` statements for the
current element, given its value from the previous iteration (`none`
when still unassigned).  A digit string is round-tripped through
`str(int(.))`, a non-digit string is kept, an `int` or `numpy.float64`
is stringified; any other element type leaves `date_` untouched, which
is the stale-variable behavior of the source. -/
def elemStr (x : PyObj) (prev : Option String) : Option String :=
  match x with
  | .pyStr s =>
    if pyIsDigit s.data then some (intToString (digitsToNat s.data)) else some s
  | .pyInt n => some (intToString n)
  | .npFloat64 n => some (intToString n)
  | _ => prev

/-- The element loop of `as_date` for sequences of length above 1
(lines 1554 to 1560): convert each element with `str2date_kernel`,
threading the local `date_` across iterations and stopping at the first
exception.  Reading `date_` while still unassigned raises
`UnboundLocalError`. -/
def convLoop : List PyObj → Option String → Outcome (List Date)
  | [], _ => ⟨[], .ok []⟩
  | x :: rest, prev =>
    match elemStr x prev with
    | none => ⟨[], .error (.unboundLocalError "date_")⟩
    | some d =>
      match str2date_kernel d with
      | ⟨ps, .error e⟩ => ⟨ps, .error e⟩
      | ⟨ps, .ok dd⟩ =>
        ⟨ps ++ (convLoop rest (some d)).prints,
          ((convLoop rest (some d)).result).map (dd :: ·)⟩

/-- Delegation of a prepared scalar string to `str2date_kernel`, with
the resulting date wrapped back into a Python object. -/
def kernelCase (d : String) : Outcome PyObj :=
  ⟨(str2date_kernel d).prints, ((str2date_kernel d).result).map PyObj.pyDate⟩

/-- The list handling of `as_date` (lines 1545 to 1560): an empty list
yields `None`, a singleton is unwrapped through `str(int(.))`, and a
longer list runs the element loop. -/
def listCase (xs : List PyObj) : Outcome PyObj :=
  match xs with
  | [] => ⟨[], .ok .pyNone⟩
  | [x] =>
    match py_int x with
    | .error e => ⟨[], .error e⟩
    | .ok n => kernelCase (intToString n)
  | x :: y :: rest =>
    ⟨(convLoop (x :: y :: rest) none).prints,
      ((convLoop (x :: y :: rest) none).result).map
        (fun ds => .pyList (ds.map PyObj.pyDate))⟩

/-- Printable Python type name of an input object, as rendered by the
diagnostic print of line 1572. -/
def typeName (x : PyObj) : String :=
  match x with
  | .pyNone => "NoneType"
  | .pyStr _ => "str"
  | .pyInt _ => "int"
  | .pyFloat _ => "float"
  | .npFloat64 _ => "numpy.float64"
  | .pyDate _ => "datetime.date"
  | .timestamp _ => "Timestamp"
  | .pyList _ => "list"
  | .series _ => "Series"
  | .ndarray _ => "ndarray"
  | .pyDict _ => "dict"

/-- Python `len(x)` where defined: sized containers and strings have a
length, scalars do not (`TypeError` in the source, caught there). -/
def pyLen (x : PyObj) : Option Nat :=
  match x with
  | .pyStr s => some s.data.length
  | .pyList xs => some xs.length
  | .series xs => some xs.length
  | .ndarray xs => some xs.length
  | .pyDict n => some n
  | _ => none

/-- First diagnostic line of the unrecognized-type branch of `as_date`
(line 1570). -/
def edge1 : String :=
  "#####  Edge case encountered! (Input data type of str_date not recognized.) #####"

/-- Second diagnostic line of the unrecognized-type branch (line
1571). -/
def edge2 (x : PyObj) : String := "\ntype(str_date) is: " ++ typeName x

/-- Third diagnostic line of the unrecognized-type branch (lines 1573
to 1576): the length when the object has one, a fixed message
otherwise. -/
def edge3 (x : PyObj) : String :=
  match pyLen x with
  | some n => "Length of str_date is: " ++ intToString n
  | none => "str_date has no length."

/-- `as_date` (lines 1503 to 1577): pandas `Timestamp` values pass
through, `Series` and `ndarray` inputs are turned into lists, lists are
handled per length, exact-type `datetime.date` values pass through,
`int` and `numpy.float64` scalars are stringified and parsed, strings
are parsed directly, and any other type only triggers the diagnostic
prints, after which returning the never-assigned `date_list` raises
`UnboundLocalError`. -/
def as_date (str_date : PyObj) : Outcome PyObj :=
  match str_date with
  | .timestamp t => ⟨[], .ok (.timestamp t)⟩
  | .series xs => listCase xs
  | .ndarray xs => listCase xs
  | .pyList xs => listCase xs
  | .pyDate d => ⟨[], .ok (.pyDate d)⟩
  | .pyInt n => kernelCase (intToString n)
  | .npFloat64 n => kernelCase (intToString n)
  | .pyStr s => kernelCase s
  | x => ⟨[edge1, edge2 x, edge3 x], .error (.unboundLocalError "date_list")⟩

/-- Year extracted by the all-digit six-character branch: the value of
the first four characters. -/
def yHi (s : String) : Int := digitsToNat (s.data.take 4)

/-- Month extracted by the all-digit six-character branch: the value of
the last two characters. -/
def mLo (s : String) : Int := digitsToNat (s.data.drop 4)

/-- Whether an outcome raised a deliberate `TypeError`, the shape of a
clear typed rejection of an unsupported input type. -/
def raisesClearTypeError (o : Outcome PyObj) : Bool :=
  match o.result with
  | .error (.typeError _) => true
  | _ => false

/-- The input types of `as_date` that fall outside every documented
`DateInput` alternative handled by the dispatch: `None`, builtin
`float`, and mappings. -/
def uncoveredType (x : PyObj) : Bool :=
  match x with
  | .pyNone => true
  | .pyFloat _ => true
  | .pyDict _ => true
  | _ => false

/-- C1: of the six documented pattern literals, five indeed normalize
to the expected calendar date, but the Aug-2014 branch of the source
never converts its year from string to integer (line 1595 omits the
conversion present in every other branch), so the date construction at
line 1623 raises `TypeError` instead of returning (2014, 8, 1). -/
theorem c1_six_pattern_literals :
    str2date_kernel "Aug-2014" =
      ⟨[], .error (.typeError "an integer is required (got type str)")⟩ ∧
    str2date_kernel "August 2014" = ⟨[], .ok ⟨2014, 8, 1⟩⟩ ∧
    str2date_kernel "201407" = ⟨[], .ok ⟨2014, 7, 1⟩⟩ ∧
    str2date_kernel "2016-07" = ⟨[], .ok ⟨2016, 7, 1⟩⟩ ∧
    str2date_kernel "2015-02-21" = ⟨[], .ok ⟨2015, 2, 21⟩⟩ ∧
    str2date_kernel "May-12" = ⟨[], .ok ⟨2012, 5, 1⟩⟩ :=
  ⟨rfl, rfl, rfl, rfl, rfl, rfl⟩

/-- C2: the input not-a-date does not produce a distinguishable
unrecognized-format result: it satisfies the coarse guard of the
ten-character branch (line 1608), whose `int` conversion then raises a
fatal `ValueError`; and an input matching no branch, such as xyz, prints
the diagnostic but then also crashes, with `UnboundLocalError`, at the
date construction of line 1623. -/
theorem c2_unrecognized_crashes :
    as_date (.pyStr "not-a-date") =
      ⟨[], .error (.valueError "invalid literal for int() with base 10: not")⟩ ∧
    as_date (.pyStr "xyz") =
      ⟨[kedge1, kedge2 "xyz"], .error (.unboundLocalError "year")⟩ :=
  ⟨rfl, rfl⟩

/-- C3: in a sequence of length above 1, an element of an unhandled
type (here the builtin float 201406.0) leaves the loop variable of line
1556 stale, so its slot silently receives a reparse of the previous
element: the result duplicates (2014, 5, 1) with no error and no signal
of the failed index.  When the first element is already unhandled the
loop instead raises `UnboundLocalError`, losing every sibling, even
though the docstring of `as_date` lists float sequences as supported. -/
theorem c3_sequence_silent_corruption :
    as_date (.pyList [.pyInt 201405, .pyFloat 201406]) =
      ⟨[], .ok (.pyList [.pyDate ⟨2014, 5, 1⟩, .pyDate ⟨2014, 5, 1⟩])⟩ ∧
    as_date (.pyList [.pyFloat 201405, .pyFloat 201406]) =
      ⟨[], .error (.unboundLocalError "date_")⟩ :=
  ⟨rfl, rfl⟩

/-- C4: the integer scalar 201407 normalizes to (2014, 7, 1), but the
builtin float 201407.0 is not a `numpy.float64`, so the dispatch of
line 1563 misses it and the unrecognized-type branch runs: diagnostics
are printed and the return of line 1577 raises `UnboundLocalError`.  A
`numpy.float64` of the same value does normalize. -/
theorem c4_numeric_scalar_divergence :
    as_date (.pyInt 201407) = ⟨[], .ok (.pyDate ⟨2014, 7, 1⟩)⟩ ∧
    as_date (.pyFloat 201407) =
      ⟨[edge1, edge2 (.pyFloat 201407), edge3 (.pyFloat 201407)],
        .error (.unboundLocalError "date_list")⟩ ∧
    as_date (.npFloat64 201407) = ⟨[], .ok (.pyDate ⟨2014, 7, 1⟩)⟩ :=
  ⟨rfl, rfl, rfl⟩

/-- C5: the scalar 2014-05-25 is accepted by the normalizer, but the
length-1 sequence wrapping it is not its equal: line 1548 first applies
`str(int(.))` to the single element, and `int` of a hyphenated date
string raises `ValueError`, even though the docstring of `as_date`
lists such singletons as supported. -/
theorem c5_singleton_unwrap_divergence :
    as_date (.pyStr "2014-05-25") = ⟨[], .ok (.pyDate ⟨2014, 5, 25⟩)⟩ ∧
    as_date (.pyList [.pyStr "2014-05-25"]) =
      ⟨[], .error (.valueError "invalid literal for int() with base 10: 2014-05-25")⟩ :=
  ⟨rfl, rfl⟩

/-- C6, counterexample: the eight-character input 2014-Aug carries its
hyphen at index 4, not 3, yet it is not treated as unrecognized: the
guard of line 1594 only tests for a hyphen anywhere plus length 8, so
the branch is entered and `strptime` raises a fatal `ValueError`; no
diagnostic line is printed. -/
theorem c6_cex_eight_char_hyphen :
    str2date_kernel "2014-Aug" =
      ⟨[], .error (.valueError "time data 2014 does not match the month format")⟩ ∧
    (str2date_kernel "2014-Aug").prints = [] :=
  ⟨rfl, rfl⟩

/-- C7: an input that is already a canonical date value, either an
exact-type `datetime.date` (line 1561) or a pandas `Timestamp` (line
1534), is returned unchanged with no output. -/
theorem c7_canonical_pass_through :
    (∀ d : Date, as_date (.pyDate d) = ⟨[], .ok (.pyDate d)⟩) ∧
    (∀ t : Int, as_date (.timestamp t) = ⟨[], .ok (.timestamp t)⟩) :=
  ⟨fun _ => rfl, fun _ => rfl⟩

/-- C8, counterexample: for a mapping input the normalizer does not
fail fast with a clear typed error: it first prints three diagnostic
lines (lines 1570 to 1576) and then raises an accidental
`UnboundLocalError` from returning the never-assigned `date_list`
(line 1577), not a `TypeError`. -/
theorem c8_cex_mapping_unbound_local :
    as_date (.pyDict 3) =
      ⟨[edge1, edge2 (.pyDict 3), edge3 (.pyDict 3)],
        .error (.unboundLocalError "date_list")⟩ ∧
    raisesClearTypeError (as_date (.pyDict 3)) = false :=
  ⟨rfl, rfl⟩

/-- C9, counterexample: normalization is not free of I/O: the
unmatched scalar hello makes `str2date_kernel` print its two
diagnostic lines (lines 1618 to 1619) before crashing. -/
theorem c9_cex_prints_on_unrecognized :
    (as_date (.pyStr "hello")).prints ≠ [] := by
  decide

/-- An `Except.map` that produced a success came from a success. -/
theorem except_map_ok {A B : Type} (f : A → B) (r : Except PyErr A) (b : B)
    (h : r.map f = .ok b) : ∃ a, r = .ok a := by
  cases r with
  | error e => simp [Except.map] at h
  | ok a => exact ⟨a, rfl⟩

/-- The dispatch chain prints nothing except in its fallthrough branch,
where it leaves every local unassigned. -/
theorem kernelLocals_prints (s : String) :
    (kernelLocals s).prints = [] ∨
    kernelLocals s = ⟨[kedge1, kedge2 s], .ok ⟨.unbound, .unbound, .unbound⟩⟩ := by
  unfold kernelLocals
  simp only []
  repeat' split
  all_goals first | (left ; rfl) | (right ; rfl)

/-- `str2date_kernel` prints nothing except on the unrecognized-format
path, where it then raises `UnboundLocalError`. -/
theorem str2date_kernel_prints (s : String) :
    (str2date_kernel s).prints = [] ∨
    str2date_kernel s = ⟨[kedge1, kedge2 s], .error (.unboundLocalError "year")⟩ := by
  rcases kernelLocals_prints s with h | h
  · left
    rcases hk : kernelLocals s with ⟨ps, r⟩
    rw [hk] at h
    unfold str2date_kernel
    rw [hk]
    cases r with
    | error e => exact h
    | ok l =>
      rcases l with ⟨ly, lm, ld⟩
      cases ld <;> exact h
  · right
    unfold str2date_kernel
    rw [h]
    rfl

/-- A successful `str2date_kernel` call printed nothing. -/
theorem str2date_kernel_ok_prints (s : String) (d : Date)
    (h : (str2date_kernel s).result = .ok d) : (str2date_kernel s).prints = [] := by
  rcases str2date_kernel_prints s with h2 | h2
  · exact h2
  · rw [h2] at h
    simp at h

/-- A successful element loop printed nothing. -/
theorem convLoop_ok_prints (xs : List PyObj) : ∀ (prev : Option String) (ds : List Date),
    (convLoop xs prev).result = .ok ds → (convLoop xs prev).prints = [] := by
  induction xs with
  | nil => intro prev ds h; rfl
  | cons x rest ih =>
    intro prev ds h
    cases he : elemStr x prev with
    | none => simp [convLoop, he] at h
    | some d =>
      rcases hk : str2date_kernel d with ⟨ps, r⟩
      cases r with
      | error e => simp [convLoop, he, hk] at h
      | ok dd =>
        have hps : ps = [] := by
          have h2 := str2date_kernel_ok_prints d dd (by rw [hk])
          rw [hk] at h2
          exact h2
        have hsub : ∃ ds0, (convLoop rest (some d)).result = .ok ds0 := by
          simp only [convLoop, he, hk] at h
          exact except_map_ok _ _ _ h
        obtain ⟨ds0, hr⟩ := hsub
        have hp2 := ih (some d) ds0 hr
        simp [convLoop, he, hk, hps, hp2]

/-- A successful scalar delegation printed nothing. -/
theorem kernelCase_ok_prints (d : String) (r : PyObj)
    (h : (kernelCase d).result = .ok r) : (kernelCase d).prints = [] := by
  have h2 : ((str2date_kernel d).result).map PyObj.pyDate = .ok r := h
  obtain ⟨dd, hr⟩ := except_map_ok _ _ _ h2
  show (str2date_kernel d).prints = []
  exact str2date_kernel_ok_prints d dd hr

/-- A successful list branch printed nothing. -/
theorem listCase_ok_prints (xs : List PyObj) (r : PyObj)
    (h : (listCase xs).result = .ok r) : (listCase xs).prints = [] := by
  rcases xs with _ | ⟨x, _ | ⟨y, rest⟩⟩
  · rfl
  · have hred : listCase [x] = (match py_int x with
        | Except.error e => (⟨[], Except.error e⟩ : Outcome PyObj)
        | Except.ok n => kernelCase (intToString n)) := rfl
    rw [hred] at h ⊢
    cases hi : py_int x with
    | error e => rw [hi] at h
    | ok n =>
      rw [hi] at h
      have h2 : (kernelCase (intToString n)).result = .ok r := h
      exact kernelCase_ok_prints (intToString n) r h2
  · have h2 : ((convLoop (x :: y :: rest) none).result).map
        (fun ds => PyObj.pyList (ds.map PyObj.pyDate)) = .ok r := h
    obtain ⟨ds0, hr⟩ := except_map_ok _ _ _ h2
    show (convLoop (x :: y :: rest) none).prints = []
    exact convLoop_ok_prints (x :: y :: rest) none ds0 hr

/-- C9, amended: normalization is deterministic and holds no state, but
it is not I/O-free; its console output occurs only on failing runs, so
every call of `as_date` that returns a value prints nothing. -/
theorem c9_ok_implies_no_prints (x : PyObj) (r : PyObj)
    (h : (as_date x).result = .ok r) : (as_date x).prints = [] := by
  cases x with
  | pyNone => simp [as_date] at h
  | pyStr s => exact kernelCase_ok_prints s r h
  | pyInt n => exact kernelCase_ok_prints (intToString n) r h
  | pyFloat n => simp [as_date] at h
  | npFloat64 n => exact kernelCase_ok_prints (intToString n) r h
  | pyDate d => rfl
  | timestamp t => rfl
  | pyList xs => exact listCase_ok_prints xs r h
  | series xs => exact listCase_ok_prints xs r h
  | ndarray xs => exact listCase_ok_prints xs r h
  | pyDict n => simp [as_date] at h

/-- C9, witness: a successful normalization that printed nothing. -/
theorem c9_ok_implies_no_prints_witness : (as_date (.pyStr "201405")).prints = [] :=
  c9_ok_implies_no_prints (.pyStr "201405") (.pyDate ⟨2014, 5, 1⟩) rfl

/-- C6, amended: the six branch guards are tried in the order of the
table with the first satisfied guard winning, but the guards are
coarser than the documented shapes; only an input satisfying none of
the six guards is treated as unrecognized, printing the two diagnostic
lines and then raising `UnboundLocalError` at the date construction. -/
theorem c6_fallthrough_diagnostic (s : String)
    (h1 : kg1 s.data = false) (h2 : kg2 s.data = false) (h3 : kg3 s.data = false)
    (h4 : kg4 s.data = false) (h5 : kg5 s.data = false) (h6 : kg6 s.data = false) :
    str2date_kernel s = ⟨[kedge1, kedge2 s], .error (.unboundLocalError "year")⟩ := by
  have hK : kernelLocals s = ⟨[kedge1, kedge2 s], .ok ⟨.unbound, .unbound, .unbound⟩⟩ := by
    unfold kernelLocals
    simp [h1, h2, h3, h4, h5, h6]
  unfold str2date_kernel
  rw [hK]
  rfl

/-- C6, witness: the input foo satisfies no guard and reaches the
diagnostic fallthrough. -/
theorem c6_fallthrough_diagnostic_witness :
    str2date_kernel "foo" = ⟨[kedge1, kedge2 "foo"], .error (.unboundLocalError "year")⟩ :=
  c6_fallthrough_diagnostic "foo" (by decide) (by decide) (by decide)
    (by decide) (by decide) (by decide)

/-- C8, amended: every input whose type is outside the handled
alternatives (builtin float, mapping, `None`) makes `as_date` print the
three diagnostic lines of its fallthrough branch and then raise an
`UnboundLocalError` from returning the never-assigned result variable;
no coercion is attempted and no value is returned. -/
theorem c8_uncovered_type_diagnostic (x : PyObj) (h : uncoveredType x = true) :
    as_date x = ⟨[edge1, edge2 x, edge3 x], .error (.unboundLocalError "date_list")⟩ := by
  cases x <;> first | rfl | simp [uncoveredType] at h

/-- C8, witness: the fallthrough behavior at the input `None`. -/
theorem c8_uncovered_type_diagnostic_witness :
    as_date .pyNone =
      ⟨[edge1, edge2 .pyNone, edge3 .pyNone], .error (.unboundLocalError "date_list")⟩ :=
  c8_uncovered_type_diagnostic .pyNone rfl

/-- A character list of digits contains no non-digit character. -/
theorem contains_false_of_digits (cs : List Char) (c : Char)
    (hc : c.isDigit = false) (h : cs.all Char.isDigit = true) :
    cs.contains c = false := by
  induction cs with
  | nil => rfl
  | cons b bs ih =>
    simp only [List.all_cons, Bool.and_eq_true] at h
    have hne : (c == b) = false := by
      apply beq_eq_false_iff_ne.mpr
      intro he
      rw [he] at hc
      rw [h.1] at hc
      exact Bool.noConfusion hc
    rw [List.contains_cons, hne, ih h.2]
    rfl

/-- Dropping leading spaces from a digit string is the identity. -/
theorem dropWhile_space_digits (cs : List Char) (h : cs.all Char.isDigit = true) :
    cs.dropWhile (· == ' ') = cs := by
  cases cs with
  | nil => rfl
  | cons b bs =>
    simp only [List.all_cons, Bool.and_eq_true] at h
    have hb : (b == ' ') = false := by
      apply beq_eq_false_iff_ne.mpr
      intro he
      rw [he] at h
      exact absurd h.1 (by decide)
    simp [List.dropWhile_cons, hb]

/-- Stripping spaces from a digit string is the identity. -/
theorem stripSpaces_digits (cs : List Char) (h : cs.all Char.isDigit = true) :
    stripSpaces cs = cs := by
  unfold stripSpaces
  rw [dropWhile_space_digits cs h]
  rw [dropWhile_space_digits cs.reverse (by rwa [List.all_reverse])]
  exact List.reverse_reverse cs

/-- Python `int(str)` succeeds on a nonempty digit string and returns
its value. -/
theorem pyIntChars_digits (cs : List Char) (h0 : cs ≠ [])
    (h : cs.all Char.isDigit = true) :
    pyIntChars cs = .ok (digitsToNat cs) := by
  have hs : stripSpaces cs = cs := stripSpaces_digits cs h
  rcases cs with _ | ⟨c, rest⟩
  · exact absurd rfl h0
  · have hc : c.isDigit = true := by
      simp only [List.all_cons, Bool.and_eq_true] at h
      exact h.1
    unfold pyIntChars
    simp only [hs]
    rw [if_neg, if_neg, if_pos]
    · exact ⟨List.cons_ne_nil c rest, h⟩
    · simp only [List.head?_cons]
      intro he
      injection he with he2
      rw [he2] at hc
      exact absurd hc (by decide)
    · simp only [List.head?_cons]
      intro he
      injection he with he2
      rw [he2] at hc
      exact absurd hc (by decide)

/-- A prefix of a digit string is a digit string. -/
theorem all_digits_take (cs : List Char) (n : Nat) (h : cs.all Char.isDigit = true) :
    (cs.take n).all Char.isDigit = true := by
  rw [List.all_eq_true] at h ⊢
  exact fun x hx => h x (List.take_subset n cs hx)

/-- A suffix of a digit string is a digit string. -/
theorem all_digits_drop (cs : List Char) (n : Nat) (h : cs.all Char.isDigit = true) :
    (cs.drop n).all Char.isDigit = true := by
  rw [List.all_eq_true] at h ⊢
  exact fun x hx => h x (List.drop_subset n cs hx)

/-- `datetime.date` on integer arguments with a month outside 1..12
raises `ValueError` (about the month, or about the year when that is
also out of range). -/
theorem dt_date_int_month_out (yi mi di : Int) (hm : mi < 1 ∨ 12 < mi) :
    ∃ msg, dt_date (.int yi) (.int mi) (.int di) = .error (.valueError msg) := by
  have hred : dt_date (.int yi) (.int mi) (.int di) =
      (if yi < 1 ∨ 9999 < yi then .error (.valueError "year is out of range")
       else if mi < 1 ∨ 12 < mi then .error (.valueError "month must be in 1..12")
       else if di < 1 ∨ daysInMonth yi mi < di then
         .error (.valueError "day is out of range for month")
       else .ok ⟨yi.toNat, mi.toNat, di.toNat⟩) := rfl
  rw [hred]
  by_cases hy : yi < 1 ∨ 9999 < yi
  · exact ⟨"year is out of range", by rw [if_pos hy]⟩
  · exact ⟨"month must be in 1..12", by rw [if_neg hy, if_pos hm]⟩

/-- C10: for every six-digit input, the all-digit branch of
`str2date_kernel` extracts year and month as the first four and the
last two digits with no range validation, so whenever the month lies
outside 1..12 the subsequent date construction raises a `ValueError`
instead of returning a date or an unrecognized-format outcome. -/
theorem c10_unvalidated_month (s : String) (h6 : s.data.length = 6)
    (hd : s.data.all Char.isDigit = true)
    (hm : ¬ (1 ≤ mLo s ∧ mLo s ≤ 12)) :
    kernelLocals s = ⟨[], .ok ⟨.int (yHi s), .int (mLo s), .unbound⟩⟩ ∧
    ∃ msg, str2date_kernel s = ⟨[], .error (.valueError msg)⟩ := by
  have hne : s.data ≠ [] := by
    intro he
    rw [he] at h6
    exact absurd h6 (by decide)
  have hg1 : kg1 s.data = false := by
    unfold kg1
    rw [contains_false_of_digits s.data '-' (by decide) hd]
    rfl
  have hg2 : kg2 s.data = false :=
    contains_false_of_digits s.data ' ' (by decide) hd
  have hemp : s.data.isEmpty = false := by
    cases hcs : s.data with
    | nil => exact absurd hcs hne
    | cons a l => rfl
  have hg3 : kg3 s.data = true := by
    unfold kg3 pyIsDigit
    rw [h6, hemp, hd]
    rfl
  have htk : pyIntChars (s.data.take 4) = .ok (digitsToNat (s.data.take 4)) := by
    apply pyIntChars_digits
    · intro he
      have hlen := congrArg List.length he
      rw [List.length_take, h6] at hlen
      exact absurd hlen (by decide)
    · exact all_digits_take s.data 4 hd
  have hdr : pyIntChars (s.data.drop 4) = .ok (digitsToNat (s.data.drop 4)) := by
    apply pyIntChars_digits
    · intro he
      have hlen := congrArg List.length he
      rw [List.length_drop, h6] at hlen
      exact absurd hlen (by decide)
    · exact all_digits_drop s.data 4 hd
  have hb3 : kbranch3 s.data = .ok ⟨.int (yHi s), .int (mLo s), .unbound⟩ := by
    unfold kbranch3
    rw [htk]
    simp only [hdr]
    rfl
  have hK : kernelLocals s = ⟨[], .ok ⟨.int (yHi s), .int (mLo s), .unbound⟩⟩ := by
    unfold kernelLocals
    simp [hg1, hg2, hg3, hb3]
  refine ⟨hK, ?_⟩
  have hm2 : mLo s < 1 ∨ 12 < mLo s := by omega
  obtain ⟨msg, hmsg⟩ := dt_date_int_month_out (yHi s) (mLo s) 1 hm2
  refine ⟨msg, ?_⟩
  unfold str2date_kernel
  rw [hK]
  show (⟨[], dt_date (.int (yHi s)) (.int (mLo s)) (.int 1)⟩ : Outcome Date) =
    ⟨[], .error (.valueError msg)⟩
  rw [hmsg]

/-- C10, witness: the six-digit input 201499 reaches the date
construction with month 99 and raises. -/
theorem c10_unvalidated_month_witness :
    kernelLocals "201499" =
      ⟨[], .ok ⟨.int (yHi "201499"), .int (mLo "201499"), .unbound⟩⟩ ∧
    ∃ msg, str2date_kernel "201499" = ⟨[], .error (.valueError msg)⟩ :=
  c10_unvalidated_month "201499" (by decide) (by decide) (by decide)
